import Mathlib

/-!
Shallow embedding of `src/C-Mon.cpp` (a Linux system resource monitor).

Modelling conventions:
* C++ `long` counters are modelled as `ℤ` (the program never exercises
  64-bit overflow on realistic counter values; overflow is not modelled).
* C++ `double` arithmetic is modelled exactly over `ℚ`.  Lean's rational
  division by zero yields `0`; wherever the C++ code can actually divide
  by zero (IEEE gives `NaN`/`±inf` there) a comment marks the spot.
* File I/O is modelled by an environment: the contents a read would see,
  with `none` standing for "the file could not be opened" (for `ifstream`
  this makes every extraction fail silently, leaving the zero-initialised
  struct unchanged) and for a `std::filesystem::filesystem_error` in the
  disk query.
* The `while` loop in `SystemMonitor::monitor` is modelled with explicit
  fuel; the theorems quantify over all sufficiently large fuel.
-/

namespace CMon

/-- CPU time counters parsed from the first line of `/proc/stat`
(struct `SystemMonitor::CPUStats`). -/
structure CPUStats where
  user : ℤ
  nice : ℤ
  system : ℤ
  idle : ℤ
  iowait : ℤ
  irq : ℤ
  softirq : ℤ
  steal : ℤ
  deriving DecidableEq, Repr

/-- `CPUStats::total`: sum of all eight counters. -/
def CPUStats.total (s : CPUStats) : ℤ :=
  s.user + s.nice + s.system + s.idle + s.iowait + s.irq + s.softirq + s.steal

/-- `CPUStats::active`: all counters except `idle` and `iowait`. -/
def CPUStats.active (s : CPUStats) : ℤ :=
  s.user + s.nice + s.system + s.irq + s.softirq + s.steal

/-- Memory counters parsed from `/proc/meminfo`
(struct `SystemMonitor::MemoryStats`). -/
structure MemoryStats where
  total : ℤ
  free : ℤ
  available : ℤ
  buffers : ℤ
  cached : ℤ
  deriving DecidableEq, Repr

/-- `MemoryStats::used_percent`: `100.0 * (1.0 - available / total)`.
There is no guard on `total`: when `total = 0` the C++ code performs the
IEEE division (producing `NaN` or `-inf`); in this rational embedding the
zero-division convention makes the quotient `0`, hence the result `100`.
Under neither semantics is the result `0.0`. -/
def MemoryStats.used_percent (m : MemoryStats) : ℚ :=
  100 * (1 - (m.available : ℚ) / (m.total : ℚ))

/-- The mutable tracker state of `SystemMonitor`: fields
`prev_cpu_stats` and `first_cpu_reading`.  In C++ `prev_cpu_stats`
starts uninitialised, guarded by `first_cpu_reading = true`; the
theorems therefore quantify over an arbitrary initial `prev_cpu_stats`. -/
structure TrackerState where
  prev_cpu_stats : CPUStats
  first_cpu_reading : Bool
  deriving DecidableEq, Repr

/-- A fresh tracker: `first_cpu_reading = true`, previous reading
arbitrary (uninitialised in the C++ source). -/
def freshTracker (p : CPUStats) : TrackerState := ⟨p, true⟩

/-- The delta computation inside `SystemMonitor::get_cpu_usage`, factored
over the already-read current `CPUStats`.  The C++ writes
`if (!first_cpu_reading) { ... } else { first_cpu_reading = false; }` and
then assigns `prev_cpu_stats = current` unconditionally; here the branch
is written positively and the new state is `⟨current, false⟩` in both
arms, which is the same control flow. -/
def observe (st : TrackerState) (current : CPUStats) : ℚ × TrackerState :=
  let cpu_usage : ℚ :=
    if st.first_cpu_reading then 0
    else
      let total_delta := current.total - st.prev_cpu_stats.total
      let active_delta := current.active - st.prev_cpu_stats.active
      if 0 < total_delta then
        100 * ((active_delta : ℚ) / (total_delta : ℚ))
      else 0
  (cpu_usage, ⟨current, false⟩)

/-- `SystemMonitor::get_cpu_stats`.  The input models the first line of
`/proc/stat`: `none` when the file cannot be opened (then `getline`
fails and the zero-initialised struct is returned unchanged), otherwise
the label token together with the numeric fields of the line.  Stream
extraction past the end of the list fails and leaves the corresponding
field at its zero initialisation, modelled by `List.getD _ 0`. -/
def get_cpu_stats (procStatLine : Option (String × List ℤ)) : CPUStats :=
  match procStatLine with
  | none => ⟨0, 0, 0, 0, 0, 0, 0, 0⟩
  | some (_, ns) =>
      ⟨ns.getD 0 0, ns.getD 1 0, ns.getD 2 0, ns.getD 3 0,
       ns.getD 4 0, ns.getD 5 0, ns.getD 6 0, ns.getD 7 0⟩

/-- `SystemMonitor::get_cpu_usage`: read the counters, then run the
stateful delta computation. -/
def get_cpu_usage (st : TrackerState) (procStatLine : Option (String × List ℤ)) :
    ℚ × TrackerState :=
  observe st (get_cpu_stats procStatLine)

/-- `SystemMonitor::get_memory_stats`.  The input models `/proc/meminfo`
as a list of `(key, value)` lines: `none` when the file cannot be opened
(then the `while (getline ...)` loop never runs and the zero-initialised
struct is returned).  Unrecognised keys are ignored. -/
def get_memory_stats (meminfo : Option (List (String × ℤ))) : MemoryStats :=
  match meminfo with
  | none => ⟨0, 0, 0, 0, 0⟩
  | some lines =>
      lines.foldl (fun stats kv =>
        if kv.1 = "MemTotal:" then
          ⟨kv.2, stats.free, stats.available, stats.buffers, stats.cached⟩
        else if kv.1 = "MemFree:" then
          ⟨stats.total, kv.2, stats.available, stats.buffers, stats.cached⟩
        else if kv.1 = "MemAvailable:" then
          ⟨stats.total, stats.free, kv.2, stats.buffers, stats.cached⟩
        else if kv.1 = "Buffers:" then
          ⟨stats.total, stats.free, stats.available, kv.2, stats.cached⟩
        else if kv.1 = "Cached:" then
          ⟨stats.total, stats.free, stats.available, stats.buffers, kv.2⟩
        else stats) ⟨0, 0, 0, 0, 0⟩

/-- `SystemMonitor::get_disk_usage`.  The input models the
`fs::space(path)` query: `none` when it throws `filesystem_error`
(caught: the function falls through to `return 0.0`), otherwise
`(capacity, free)` in bytes. -/
def get_disk_usage (space : Option (ℤ × ℤ)) : ℚ :=
  match space with
  | none => 0
  | some cf =>
      if (0 : ℚ) < (cf.1 : ℚ) then 100 * (1 - (cf.2 : ℚ) / (cf.1 : ℚ))
      else 0

/-- One snapshot, the per-tick output triple (the timestamp is wall-clock
I/O and carries no program logic; it is not modelled). -/
structure Snapshot where
  cpu : ℚ
  mem : ℚ
  disk : ℚ
  deriving DecidableEq, Repr

/-- The I/O environment of a session: what each tick's reads would see.
`procStat i` / `meminfo i` / `disk i` are the sources as observed by the
`i`-th tick, `none` meaning the open/query fails. -/
structure Env where
  procStat : ℕ → Option (String × List ℤ)
  meminfo : ℕ → Option (List (String × ℤ))
  disk : ℕ → Option (ℤ × ℤ)

/-- An environment in which every source is unavailable on every tick. -/
def envNone : Env := ⟨fun _ => none, fun _ => none, fun _ => none⟩

/-- One iteration of the body of `SystemMonitor::monitor`: read all three
metrics (CPU through the tracker) and compose the snapshot. -/
def doTick (env : Env) (i : ℕ) (st : TrackerState) : Snapshot × TrackerState :=
  let r := get_cpu_usage st (env.procStat i)
  let mem := (get_memory_stats (env.meminfo i)).used_percent
  let disk := get_disk_usage (env.disk i)
  (⟨r.1, mem, disk⟩, r.2)

/-- A line of the CSV log file: the header written by the constructor, or
one data row per tick. -/
inductive CsvLine where
  | header
  | row (s : Snapshot)
  deriving DecidableEq, Repr

/-- The loop of `SystemMonitor::monitor`, with explicit fuel:
`while (count == -1 || iterations < count)`, each iteration printing one
console line (returned as the snapshot list), appending one CSV row when
logging is enabled, and incrementing `iterations`.  The
`sleep_for(interval)` between iterations has no observable effect in
this model.  Returns (console snapshots, CSV file contents, final
tracker state). -/
def monitorLoop (env : Env) (logEnabled : Bool) (count : ℤ) (iterations : ℤ)
    (st : TrackerState) (log : List CsvLine) (fuel : ℕ) :
    List Snapshot × List CsvLine × TrackerState :=
  match fuel with
  | 0 => ([], log, st)
  | Nat.succ fuel =>
      if count = -1 ∨ iterations < count then
        let r := doTick env iterations.toNat st
        let log2 := if logEnabled then log ++ [CsvLine.row r.1] else log
        let rest := monitorLoop env logEnabled count (iterations + 1) r.2 log2 fuel
        (r.1 :: rest.1, rest.2.1, rest.2.2)
      else ([], log, st)

/-- The CSV file as initialised by the `SystemMonitor` constructor: when a
log file is given, it is opened with `trunc` and the single header row is
written; otherwise no file is touched. -/
def sessionInitLog (logEnabled : Bool) : List CsvLine :=
  if logEnabled then [CsvLine.header] else []

/-- A whole monitoring session: construct the monitor (writing the CSV
header if logging), then run `monitor(interval, count)` from a fresh
tracker with `iterations = 0`. -/
def monitorSession (env : Env) (logEnabled : Bool) (count : ℤ) (p : CPUStats)
    (fuel : ℕ) : List Snapshot × List CsvLine × TrackerState :=
  monitorLoop env logEnabled count 0 (freshTracker p) (sessionInitLog logEnabled) fuel

/-- `std::stoi`: optional leading whitespace, optional sign, then decimal
digits; throws `std::invalid_argument` (modelled as `.error ()`) when no
conversion can be performed.  Trailing non-digit characters are ignored,
as in C++.  (`std::out_of_range` on overflow is not modelled: values are
unbounded `ℤ` here.) -/
def stoi (s : String) : Except Unit ℤ :=
  let cs := s.data.dropWhile (fun c => c = ' ')
  let signed : Bool × List Char :=
    match cs with
    | '-' :: rest => (true, rest)
    | '+' :: rest => (false, rest)
    | _ => (false, cs)
  let digits := signed.2.takeWhile Char.isDigit
  if digits.isEmpty then Except.error ()
  else
    let n : ℤ := digits.foldl (fun acc c => 10 * acc + ((c.toNat - '0'.toNat : ℕ) : ℤ)) 0
    Except.ok (if signed.1 then -n else n)

/-- The argument-parsing loop of `main`, carrying `(interval, count,
log_file)`.  `-h` or `--help` prints help and returns immediately (`.ok
none`).  A value flag at the very end of the line (`i + 1 >= argc`) does
nothing.  `std::stoi` failures propagate as `.error ()`: the loop runs
before the `try` block, so such an exception is never caught.  Unknown
arguments are ignored. -/
def parseLoop : List String → ℤ → ℤ → String → Except Unit (Option (ℤ × ℤ × String))
  | [], interval, count, log_file => Except.ok (some (interval, count, log_file))
  | a :: rest, interval, count, log_file =>
      if a = "-h" ∨ a = "--help" then Except.ok none
      else if a = "-i" ∨ a = "--interval" then
        match rest with
        | [] => Except.ok (some (interval, count, log_file))
        | v :: rest2 =>
            match stoi v with
            | Except.error e => Except.error e
            | Except.ok n => parseLoop rest2 n count log_file
      else if a = "-c" ∨ a = "--count" then
        match rest with
        | [] => Except.ok (some (interval, count, log_file))
        | v :: rest2 =>
            match stoi v with
            | Except.error e => Except.error e
            | Except.ok n => parseLoop rest2 interval n log_file
      else if a = "-l" ∨ a = "--log" then
        match rest with
        | [] => Except.ok (some (interval, count, log_file))
        | v :: rest2 => parseLoop rest2 interval count v
      else parseLoop rest interval count log_file

/-- Possible outcomes of the process. -/
inductive MainResult where
  /-- `main` returned this exit code. -/
  | exit (code : ℤ)
  /-- An exception escaped `main` (e.g. `std::stoi` throwing outside the
  `try` block): `std::terminate` aborts the process, which is not an
  ordinary exit and in particular not exit code 1. -/
  | aborted
  /-- `monitor` was entered with `count = -1` and loops forever. -/
  | runsForever
  deriving DecidableEq, Repr

/-- `main`, up to its exit behaviour.  Defaults: `interval = 1`,
`count = -1`, empty log file.  After parsing, the `try` block constructs
the monitor and runs the session; nothing inside it throws (`ofstream`
and `iostream` operations do not throw by default, and
`get_disk_usage` catches `filesystem_error` itself), so the
`catch`-and-`return 1` path is dead and a terminating session always
reaches `return 0`.  The session's observable output is `monitorSession`. -/
def cmonMain (args : List String) : MainResult :=
  match parseLoop args 1 (-1) "" with
  | Except.error _ => MainResult.aborted
  | Except.ok none => MainResult.exit 0
  | Except.ok (some cfg) =>
      if cfg.2.1 = -1 then MainResult.runsForever
      else MainResult.exit 0

/-- The exit behaviour of `main` as a function of the outcome of its
argument-parsing loop: a `std::stoi` exception escapes `main` (abort); a
help flag returns 0; otherwise the session runs — forever when
`count = -1`, else to normal completion with exit code 0. -/
def exitBehavior : Except Unit (Option (ℤ × ℤ × String)) → MainResult
  | Except.error _ => MainResult.aborted
  | Except.ok none => MainResult.exit 0
  | Except.ok (some cfg) =>
      if cfg.2.1 = -1 then MainResult.runsForever else MainResult.exit 0

/-! ## Loop lemmas -/

/-- With a bound `iterations ≤ count` and enough fuel, the monitor loop
performs exactly `count - iterations` further ticks. -/
theorem monitorLoop_length (env : Env) (logEnabled : Bool) (count : ℤ) :
    ∀ (fuel : ℕ) (iterations : ℤ) (st : TrackerState) (log : List CsvLine),
      0 ≤ iterations → iterations ≤ count → (count - iterations).toNat ≤ fuel →
      (monitorLoop env logEnabled count iterations st log fuel).1.length
        = (count - iterations).toNat := by
  intro fuel
  induction fuel with
  | zero =>
      intro iterations st log h0 h1 hf
      simp only [monitorLoop, List.length_nil]
      omega
  | succ fuel ih =>
      intro iterations st log h0 h1 hf
      by_cases hlt : iterations < count
      · have hguard : count = -1 ∨ iterations < count := Or.inr hlt
        simp only [monitorLoop, if_pos hguard, List.length_cons]
        rw [ih (iterations + 1) _ _ (by omega) (by omega) (by omega)]
        omega
      · have hguard : ¬(count = -1 ∨ iterations < count) := by
          push_neg
          exact ⟨by omega, by omega⟩
        simp only [monitorLoop, if_neg hguard, List.length_nil]
        omega

/-- When logging is enabled, the loop leaves the CSV file equal to its
initial contents followed by one data row per emitted snapshot. -/
theorem monitorLoop_log (env : Env) (count : ℤ) :
    ∀ (fuel : ℕ) (iterations : ℤ) (st : TrackerState) (log : List CsvLine),
      (monitorLoop env true count iterations st log fuel).2.1
        = log ++ (monitorLoop env true count iterations st log fuel).1.map CsvLine.row := by
  intro fuel
  induction fuel with
  | zero => intro iterations st log; simp [monitorLoop]
  | succ fuel ih =>
      intro iterations st log
      by_cases hguard : count = -1 ∨ iterations < count
      · simp only [monitorLoop, if_pos hguard, if_pos, List.map_cons]
        rw [ih]
        simp
      · simp only [monitorLoop, if_neg hguard, List.map_nil, List.append_nil]

/-! ## Claims -/

/-- Claim C1: on a fresh tracker, the first `observe` returns `0.0`
(cold start) and the second returns
`100 * (active(R2) - active(R1)) / (total(R2) - total(R1))` whenever
`total(R2) > total(R1)`; in particular for
`R1 = {user:100, idle:900}` and `R2 = {user:200, idle:1800}` (all other
counters zero) the second `observe` returns exactly `10.0`. -/
theorem c1_fresh_tracker_two_readings (p R1 R2 : CPUStats)
    (h : R1.total < R2.total) :
    (observe (freshTracker p) R1).1 = 0 ∧
    (observe (observe (freshTracker p) R1).2 R2).1
      = 100 * (((R2.active - R1.active : ℤ) : ℚ) / ((R2.total - R1.total : ℤ) : ℚ)) ∧
    (observe (observe (freshTracker ⟨0, 0, 0, 0, 0, 0, 0, 0⟩)
          (⟨100, 0, 0, 900, 0, 0, 0, 0⟩ : CPUStats)).2
        (⟨200, 0, 0, 1800, 0, 0, 0, 0⟩ : CPUStats)).1 = 10 := by
  have hδ : (0 : ℤ) < R2.total - R1.total := by omega
  refine ⟨rfl, ?_, by norm_num [observe, freshTracker, CPUStats.total, CPUStats.active]⟩
  show (observe ⟨R1, false⟩ R2).1 = _
  simp [observe, hδ]

/-- Claim C1 witness. -/
theorem c1_fresh_tracker_two_readings_witness :
    (⟨100, 0, 0, 900, 0, 0, 0, 0⟩ : CPUStats).total
        < (⟨200, 0, 0, 1800, 0, 0, 0, 0⟩ : CPUStats).total ∧
    (observe (freshTracker ⟨0, 0, 0, 0, 0, 0, 0, 0⟩)
        (⟨100, 0, 0, 900, 0, 0, 0, 0⟩ : CPUStats)).1 = 0 :=
  ⟨by decide,
   (c1_fresh_tracker_two_readings ⟨0, 0, 0, 0, 0, 0, 0, 0⟩
      ⟨100, 0, 0, 900, 0, 0, 0, 0⟩ ⟨200, 0, 0, 1800, 0, 0, 0, 0⟩ (by decide)).1⟩

/-- Claim C4: once a previous reading `R1` is stored, observing `R2` with
`total(R2) ≤ total(R1)` returns exactly `0.0`. -/
theorem c4_counter_regression_zero (R1 R2 : CPUStats)
    (h : R2.total ≤ R1.total) :
    (observe ⟨R1, false⟩ R2).1 = 0 := by
  have hδ : ¬((0 : ℤ) < R2.total - R1.total) := by omega
  simp [observe, hδ]

/-- Claim C4 witness. -/
theorem c4_counter_regression_zero_witness :
    (⟨0, 0, 0, 0, 0, 0, 0, 0⟩ : CPUStats).total
        ≤ (⟨1, 0, 0, 0, 0, 0, 0, 0⟩ : CPUStats).total ∧
    (observe ⟨⟨1, 0, 0, 0, 0, 0, 0, 0⟩, false⟩ ⟨0, 0, 0, 0, 0, 0, 0, 0⟩).1 = 0 :=
  ⟨by decide,
   c4_counter_regression_zero ⟨1, 0, 0, 0, 0, 0, 0, 0⟩ ⟨0, 0, 0, 0, 0, 0, 0, 0⟩
     (by decide)⟩

/-- Claim C5: after every `observe` — cold-start path included — the
stored previous reading equals the current one and the first-reading
flag is cleared. -/
theorem c5_baseline_replaced_unconditionally (st : TrackerState) (current : CPUStats) :
    (observe st current).2 = ⟨current, false⟩ := rfl

/-- Claim C10: observing a reading identical to the stored previous one
returns exactly `0.0` (the zero total delta takes the guarded branch)
and leaves the stored previous reading equal to that reading. -/
theorem c10_duplicate_reading_zero (R : CPUStats) :
    (observe ⟨R, false⟩ R).1 = 0 ∧ (observe ⟨R, false⟩ R).2.prev_cpu_stats = R := by
  constructor
  · have hδ : ¬((0 : ℤ) < R.total - R.total) := by omega
    simp [observe, hδ]
  · rfl

/-- Claim C2 counterexample: `used_percent` has no guard on `total`.
For the all-zero reading (`total = 0`) the division is performed and the
result is `100` under the rational embedding (IEEE doubles give `NaN`),
not the `0.0` the claim promises. -/
theorem c2_zero_total_not_guarded :
    (⟨0, 0, 0, 0, 0⟩ : MemoryStats).used_percent = 100 ∧
    (⟨0, 0, 0, 0, 0⟩ : MemoryStats).used_percent ≠ 0 := by
  constructor <;> norm_num [MemoryStats.used_percent]

/-- Claim C2 as amended: for every memory reading with
`total ≥ available ≥ 0` and `total > 0`, the computed percentage lies in
`[0, 100]`; the `total = 0` case is not guarded — the division is
performed with a zero divisor and does not yield `0.0`. -/
theorem c2_mem_percent_in_range (m : MemoryStats) (h1 : 0 < m.total)
    (h2 : 0 ≤ m.available) (h3 : m.available ≤ m.total) :
    0 ≤ m.used_percent ∧ m.used_percent ≤ 100 := by
  have ht : (0 : ℚ) < (m.total : ℚ) := by exact_mod_cast h1
  have ha : (0 : ℚ) ≤ (m.available : ℚ) := by exact_mod_cast h2
  have hat : (m.available : ℚ) ≤ (m.total : ℚ) := by exact_mod_cast h3
  have hq0 : (0 : ℚ) ≤ (m.available : ℚ) / (m.total : ℚ) := div_nonneg ha ht.le
  have hq1 : (m.available : ℚ) / (m.total : ℚ) ≤ 1 := (div_le_one ht).mpr hat
  unfold MemoryStats.used_percent
  constructor <;> linarith

/-- Claim C2 witness. -/
theorem c2_mem_percent_in_range_witness :
    ((0 : ℤ) < 100 ∧ (0 : ℤ) ≤ 50 ∧ (50 : ℤ) ≤ 100) ∧
    (0 ≤ (⟨100, 0, 50, 0, 0⟩ : MemoryStats).used_percent ∧
      (⟨100, 0, 50, 0, 0⟩ : MemoryStats).used_percent ≤ 100) :=
  ⟨⟨by decide, by decide, by decide⟩,
   c2_mem_percent_in_range ⟨100, 0, 50, 0, 0⟩ (by decide) (by decide) (by decide)⟩

/-- Claim C3 counterexample: when `/proc/stat` and `/proc/meminfo`
cannot be opened, the reads do not fail — they return zeroed readings —
and the tick still produces a snapshot (here `⟨0, 100, 0⟩`: cold-start
CPU `0`, memory percent computed from the zeroed reading, disk `0`). -/
theorem c3_unavailable_sources_still_tick :
    get_cpu_stats none = (⟨0, 0, 0, 0, 0, 0, 0, 0⟩ : CPUStats) ∧
    get_memory_stats none = (⟨0, 0, 0, 0, 0⟩ : MemoryStats) ∧
    (doTick envNone 0 (freshTracker ⟨0, 0, 0, 0, 0, 0, 0, 0⟩)).1
      = (⟨0, 100, 0⟩ : Snapshot) := by
  refine ⟨rfl, rfl, ?_⟩
  norm_num [doTick, envNone, get_cpu_usage, get_cpu_stats, get_disk_usage,
    get_memory_stats, observe, freshTracker, MemoryStats.used_percent, Snapshot.mk.injEq]

/-- Claim C3 as amended: when the CPU or memory pseudo-file cannot be
opened, the corresponding read silently returns a zeroed reading (no
error is raised), and the tick still composes and returns a snapshot
from those zeroed readings rather than failing. -/
theorem c3_unavailable_sources_zeroed (env : Env) (i : ℕ) (st : TrackerState)
    (hc : env.procStat i = none) (hm : env.meminfo i = none) :
    (doTick env i st).1.cpu = (observe st ⟨0, 0, 0, 0, 0, 0, 0, 0⟩).1 ∧
    (doTick env i st).1.mem = (⟨0, 0, 0, 0, 0⟩ : MemoryStats).used_percent ∧
    (doTick env i st).1.disk = get_disk_usage (env.disk i) ∧
    (doTick env i st).2 = ⟨⟨0, 0, 0, 0, 0, 0, 0, 0⟩, false⟩ := by
  refine ⟨?_, ?_, ?_, ?_⟩ <;>
    simp [doTick, get_cpu_usage, get_cpu_stats, get_memory_stats, hc, hm, observe]

/-- Claim C3 witness. -/
theorem c3_unavailable_sources_zeroed_witness :
    (envNone.procStat 0 = none ∧ envNone.meminfo 0 = none) ∧
    ((doTick envNone 0 (freshTracker ⟨0, 0, 0, 0, 0, 0, 0, 0⟩)).1.cpu
        = (observe (freshTracker ⟨0, 0, 0, 0, 0, 0, 0, 0⟩) ⟨0, 0, 0, 0, 0, 0, 0, 0⟩).1 ∧
      (doTick envNone 0 (freshTracker ⟨0, 0, 0, 0, 0, 0, 0, 0⟩)).1.mem
        = (⟨0, 0, 0, 0, 0⟩ : MemoryStats).used_percent ∧
      (doTick envNone 0 (freshTracker ⟨0, 0, 0, 0, 0, 0, 0, 0⟩)).1.disk
        = get_disk_usage (envNone.disk 0) ∧
      (doTick envNone 0 (freshTracker ⟨0, 0, 0, 0, 0, 0, 0, 0⟩)).2
        = ⟨⟨0, 0, 0, 0, 0, 0, 0, 0⟩, false⟩) :=
  ⟨⟨rfl, rfl⟩,
   c3_unavailable_sources_zeroed envNone 0 (freshTracker ⟨0, 0, 0, 0, 0, 0, 0, 0⟩) rfl rfl⟩

/-- Claim C6: a session with `count = n ≥ 0` (and enough fuel) performs
exactly `n` ticks: `n` console lines, and with logging enabled the CSV
file is the single header row written at construction followed by
exactly `n` data rows. -/
theorem c6_session_counts (env : Env) (p : CPUStats) (n fuel : ℕ)
    (hf : n ≤ fuel) :
    (monitorSession env true (n : ℤ) p fuel).1.length = n ∧
    (monitorSession env true (n : ℤ) p fuel).2.1
      = CsvLine.header :: (monitorSession env true (n : ℤ) p fuel).1.map CsvLine.row ∧
    (monitorSession env true (n : ℤ) p fuel).2.1.length = n + 1 := by
  have h0 : (0 : ℤ) ≤ (n : ℤ) := by omega
  have hf2 : ((n : ℤ) - 0).toNat ≤ fuel := by omega
  have hlen := monitorLoop_length env true (n : ℤ) fuel 0 (freshTracker p)
    (sessionInitLog true) le_rfl h0 hf2
  have hlog := monitorLoop_log env (n : ℤ) fuel 0 (freshTracker p) (sessionInitLog true)
  rw [monitorSession] at *
  have hlen2 : (monitorLoop env true (n : ℤ) 0 (freshTracker p)
      (sessionInitLog true) fuel).1.length = n := by omega
  refine ⟨hlen2, ?_, ?_⟩
  · rw [hlog]
    rfl
  · rw [hlog, List.length_append, List.length_map, hlen2]
    have hone : (sessionInitLog true).length = 1 := rfl
    omega

/-- Claim C6 witness. -/
theorem c6_session_counts_witness :
    3 ≤ 3 ∧
    ((monitorSession envNone true ((3 : ℕ) : ℤ) ⟨0, 0, 0, 0, 0, 0, 0, 0⟩ 3).1.length = 3 ∧
      (monitorSession envNone true ((3 : ℕ) : ℤ) ⟨0, 0, 0, 0, 0, 0, 0, 0⟩ 3).2.1
        = CsvLine.header ::
            (monitorSession envNone true ((3 : ℕ) : ℤ)
                ⟨0, 0, 0, 0, 0, 0, 0, 0⟩ 3).1.map CsvLine.row ∧
      (monitorSession envNone true ((3 : ℕ) : ℤ) ⟨0, 0, 0, 0, 0, 0, 0, 0⟩ 3).2.1.length
        = 3 + 1) :=
  ⟨by decide, c6_session_counts envNone ⟨0, 0, 0, 0, 0, 0, 0, 0⟩ 3 3 (by decide)⟩

/-- Claim C7: a failed disk query degrades to `0.0` instead of an error,
and it leaves the tick's CPU and memory values (and the tracker state)
exactly what they would be under any environment agreeing on the CPU and
memory sources. -/
theorem c7_disk_fail_soft (env env2 : Env) (i : ℕ) (st : TrackerState)
    (hd : env.disk i = none)
    (hc : env2.procStat = env.procStat) (hm : env2.meminfo = env.meminfo) :
    get_disk_usage (env.disk i) = 0 ∧
    (doTick env i st).1.disk = 0 ∧
    (doTick env i st).1.cpu = (doTick env2 i st).1.cpu ∧
    (doTick env i st).1.mem = (doTick env2 i st).1.mem ∧
    (doTick env i st).2 = (doTick env2 i st).2 := by
  refine ⟨?_, ?_, ?_, ?_, ?_⟩ <;> simp [doTick, get_disk_usage, hd, hc, hm]

/-- Claim C7 witness. -/
theorem c7_disk_fail_soft_witness :
    (envNone.disk 0 = none ∧ envNone.procStat = envNone.procStat ∧
      envNone.meminfo = envNone.meminfo) ∧
    (get_disk_usage (envNone.disk 0) = 0 ∧
      (doTick envNone 0 (freshTracker ⟨0, 0, 0, 0, 0, 0, 0, 0⟩)).1.disk = 0 ∧
      (doTick envNone 0 (freshTracker ⟨0, 0, 0, 0, 0, 0, 0, 0⟩)).1.cpu
        = (doTick envNone 0 (freshTracker ⟨0, 0, 0, 0, 0, 0, 0, 0⟩)).1.cpu ∧
      (doTick envNone 0 (freshTracker ⟨0, 0, 0, 0, 0, 0, 0, 0⟩)).1.mem
        = (doTick envNone 0 (freshTracker ⟨0, 0, 0, 0, 0, 0, 0, 0⟩)).1.mem ∧
      (doTick envNone 0 (freshTracker ⟨0, 0, 0, 0, 0, 0, 0, 0⟩)).2
        = (doTick envNone 0 (freshTracker ⟨0, 0, 0, 0, 0, 0, 0, 0⟩)).2) :=
  ⟨⟨rfl, rfl, rfl⟩,
   c7_disk_fail_soft envNone envNone 0 (freshTracker ⟨0, 0, 0, 0, 0, 0, 0, 0⟩) rfl rfl rfl⟩

/-- Claim C8 counterexample: an error raised while parsing a
command-line argument value (`std::stoi` on `"foo"`) is thrown outside
the `try` block, so the process aborts via `std::terminate`; it does not
exit with code 1. -/
theorem c8_stoi_error_aborts :
    cmonMain ["--count", "foo"] = MainResult.aborted ∧
    MainResult.aborted ≠ MainResult.exit 1 := by
  constructor
  · rfl
  · decide

/-- Claim C8 as amended: the process exits with code 0 on normal
completion of a bounded session or after printing help, and runs forever
when `count = -1`; an error raised while parsing a command-line argument
value is not caught by anything (the `try` block starts only after
parsing) and aborts the process rather than exiting with code 1.  The
`catch` that returns 1 guards only the monitoring session, inside which
no operation throws. -/
theorem c8_exit_codes (args : List String)
    (r : Except Unit (Option (ℤ × ℤ × String)))
    (hr : parseLoop args 1 (-1) "" = r) :
    cmonMain args = exitBehavior r := by
  subst hr
  rfl

/-- Claim C8 witness. -/
theorem c8_exit_codes_witness :
    parseLoop ["-c", "2"] 1 (-1) "" = Except.ok (some (1, 2, "")) ∧
    cmonMain ["-c", "2"] = MainResult.exit 0 :=
  ⟨by rfl, c8_exit_codes ["-c", "2"] (Except.ok (some (1, 2, ""))) (by rfl)⟩

/-- Claim C9: for every `count < -1` the loop guard is false at entry,
so the session performs zero ticks, emits no console lines, appends no
CSV rows, and completes normally (exit code 0); only the exact sentinel
`-1` selects infinite iteration. -/
theorem c9_count_below_sentinel_zero_ticks (env : Env) (logEnabled : Bool)
    (count : ℤ) (h : count < -1) (p : CPUStats) (fuel : ℕ) :
    monitorSession env logEnabled count p fuel
      = ([], sessionInitLog logEnabled, freshTracker p) ∧
    cmonMain ["-c", "-2"] = MainResult.exit 0 := by
  constructor
  · cases fuel with
    | zero => rfl
    | succ fuel =>
        have hguard : ¬(count = -1 ∨ (0 : ℤ) < count) := by
          push_neg
          exact ⟨by omega, by omega⟩
        simp only [monitorSession, monitorLoop, if_neg hguard]
  · rfl

/-- Claim C9 witness. -/
theorem c9_count_below_sentinel_zero_ticks_witness :
    (-2 : ℤ) < -1 ∧
    (monitorSession envNone true (-2) ⟨0, 0, 0, 0, 0, 0, 0, 0⟩ 5
        = ([], sessionInitLog true, freshTracker ⟨0, 0, 0, 0, 0, 0, 0, 0⟩) ∧
      cmonMain ["-c", "-2"] = MainResult.exit 0) :=
  ⟨by decide,
   c9_count_below_sentinel_zero_ticks envNone true (-2) (by decide)
     ⟨0, 0, 0, 0, 0, 0, 0, 0⟩ 5⟩

end CMon
